import Mathlib

/-!
# FitMate Daily Ledger Service — verification development

Shallow embedding of the FitMate daily nutrition/exercise ledger
(`src/utils/dataUtils.ts` and the meal-addition logic of the Nutrition
page) together with proofs of its specified properties.

Modelling conventions:
* JavaScript numbers carrying nutrition values, quantities and water
  intake are modelled as `ℚ` (the spec treats them as exact rationals).
* `localStorage` is modelled as a `Store` record holding the three
  persisted collections (`logs`, `foods`, `exercises` keyed by
  `fitmate_logs`, `fitmate_foods`, `fitmate_exercises`).
* Each data-layer operation is a function `… → Store → result × Store`;
  the artificial `setTimeout` latency carries no semantics and is
  dropped.
* Dates are the `yyyy-MM-dd` strings the code compares with `===`.
-/

/-- `FoodItem` from `src/types/index.ts`. -/
structure FoodItem where
  id : Nat
  name : String
  calories : ℚ
  protein : ℚ
  carbs : ℚ
  fat : ℚ
  serving : String
deriving Repr, DecidableEq

/-- One element of `Meal.items`: a `{ item, quantity }` pair. -/
structure MealEntry where
  item : FoodItem
  quantity : ℚ
deriving Repr, DecidableEq

/-- `Meal['type']`: `'breakfast' | 'lunch' | 'dinner' | 'snack'`. -/
inductive MealType where
  | breakfast
  | lunch
  | dinner
  | snack
deriving Repr, DecidableEq

instance : BEq MealType := ⟨fun a b => decide (a = b)⟩

instance : LawfulBEq MealType where
  rfl := by intro a; simp [BEq.beq]
  eq_of_beq := by intro a b h; simpa [BEq.beq] using h

/-- `Meal` from `src/types/index.ts`. -/
structure Meal where
  id : Nat
  type : MealType
  items : List MealEntry
  totalCalories : ℚ
  totalProtein : ℚ
  totalCarbs : ℚ
  totalFat : ℚ
deriving Repr, DecidableEq

/-- `Exercise` from `src/types/index.ts`. -/
structure Exercise where
  id : Nat
  name : String
  duration : Option String
  reps : Option Nat
  sets : Option Nat
  completed : Bool
  image : Option String
deriving Repr, DecidableEq

/-- `DailyLog` from `src/types/index.ts`. -/
structure DailyLog where
  date : String
  meals : List Meal
  exercises : List Exercise
  waterIntake : ℚ
  weight : Option ℚ
deriving Repr, DecidableEq

/-- The persisted state: the three localStorage collections used by
`dataUtils.ts` (`fitmate_logs`, `fitmate_foods`, `fitmate_exercises`). -/
structure Store where
  logs : List DailyLog
  foods : List FoodItem
  exercises : List Exercise
deriving Repr, DecidableEq

/-- `getTodayLog` from `dataUtils.ts`: finds the log whose `date` equals
today's date string; if none exists, creates a fresh log (empty meals,
exercises copied from the stored catalog, water intake 0) and appends it
to the stored list. -/
def getTodayLog (today : String) (s : Store) : DailyLog × Store :=
  match s.logs.find? (fun log => log.date == today) with
  | some todayLog => (todayLog, s)
  | none =>
      let todayLog : DailyLog :=
        { date := today
          meals := []
          exercises := s.exercises
          waterIntake := 0
          weight := none }
      (todayLog, { s with logs := s.logs ++ [todayLog] })

/-- `Omit<Meal, 'id'>`: the argument of `addMeal`. -/
structure MealNoId where
  type : MealType
  items : List MealEntry
  totalCalories : ℚ
  totalProtein : ℚ
  totalCarbs : ℚ
  totalFat : ℚ
deriving Repr, DecidableEq

/-- `addMeal` from `dataUtils.ts`: fetches (or lazily creates) today's
log, forms the new `Meal` with a fresh id (`Date.now()` in the source,
here the explicit argument `newId`), appends it to today's meals, and
writes back the log list with every log of today's date replaced by the
updated log. -/
def addMeal (meal : MealNoId) (newId : Nat) (today : String) (s : Store) :
    Meal × Store :=
  let r := getTodayLog today s
  let todayLog := r.1
  let s1 := r.2
  let newMeal : Meal :=
    { id := newId
      type := meal.type
      items := meal.items
      totalCalories := meal.totalCalories
      totalProtein := meal.totalProtein
      totalCarbs := meal.totalCarbs
      totalFat := meal.totalFat }
  let updatedLog := { todayLog with meals := todayLog.meals ++ [newMeal] }
  let updatedLogs := s1.logs.map fun log =>
    if log.date == todayLog.date then updatedLog else log
  (newMeal, { s1 with logs := updatedLogs })

/-- The list of logs `updateWaterIntake` writes back, computed from the
snapshot `s` it read (read phase of the read-modify-write cycle). -/
def waterWriteList (amount : ℚ) (today : String) (s : Store) : List DailyLog :=
  let r := getTodayLog today s
  let todayLog := r.1
  let updatedLog := { todayLog with waterIntake := amount }
  r.2.logs.map fun log =>
    if log.date == todayLog.date then updatedLog else log

/-- Overwrite the persisted log list (the `localStorage.setItem` write
phase shared by every mutation). -/
def writeLogs (ls : List DailyLog) (s : Store) : Store :=
  { s with logs := ls }

/-- `updateWaterIntake` from `dataUtils.ts`: fetches (or lazily creates)
today's log, replaces its `waterIntake` field with `amount`, writes the
patched log list back, and resolves with `amount`. -/
def updateWaterIntake (amount : ℚ) (today : String) (s : Store) : ℚ × Store :=
  (amount, writeLogs (waterWriteList amount today s) (getTodayLog today s).2)

/-- The per-exercise update applied by `toggleExerciseCompletion`'s
`map`: flip `completed` on an id match, otherwise leave untouched. -/
def toggleIfMatch (exerciseId : Nat) (ex : Exercise) : Exercise :=
  if ex.id == exerciseId then { ex with completed := !ex.completed } else ex

/-- The exercise list `toggleExerciseCompletion` produces for today's
log, from the snapshot it read. -/
def toggledExercises (exerciseId : Nat) (today : String) (s : Store) :
    List Exercise :=
  ((getTodayLog today s).1).exercises.map (toggleIfMatch exerciseId)

/-- The list of logs `toggleExerciseCompletion` writes back, computed
from the snapshot `s` it read (read phase of its read-modify-write
cycle). -/
def toggleWriteList (exerciseId : Nat) (today : String) (s : Store) :
    List DailyLog :=
  let r := getTodayLog today s
  let todayLog := r.1
  let updatedLog :=
    { todayLog with exercises := toggledExercises exerciseId today s }
  r.2.logs.map fun log =>
    if log.date == todayLog.date then updatedLog else log

/-- `toggleExerciseCompletion` from `dataUtils.ts`: fetches (or lazily
creates) today's log, maps over its exercises flipping `completed` on
the one whose id matches, writes the patched log list back, and resolves
with the updated exercise list. -/
def toggleExerciseCompletion (exerciseId : Nat) (today : String) (s : Store) :
    List Exercise × Store :=
  (toggledExercises exerciseId today s,
    writeLogs (toggleWriteList exerciseId today s) (getTodayLog today s).2)

/-- The record returned by `calculateTodayStats`. -/
structure TodayStats where
  caloriesConsumed : ℚ
  proteinConsumed : ℚ
  carbsConsumed : ℚ
  fatConsumed : ℚ
  waterIntake : ℚ
  completedExercises : Nat
deriving Repr, DecidableEq

/-- The accumulator step of the `reduce` in `calculateTodayStats`. -/
def statsStep (acc : TodayStats) (meal : Meal) : TodayStats :=
  { acc with
    caloriesConsumed := acc.caloriesConsumed + meal.totalCalories
    proteinConsumed := acc.proteinConsumed + meal.totalProtein
    carbsConsumed := acc.carbsConsumed + meal.totalCarbs
    fatConsumed := acc.fatConsumed + meal.totalFat }

/-- `calculateTodayStats` from `dataUtils.ts`: fetches (or lazily
creates) today's log and reduces over its meals, starting from an
accumulator holding zero macros, the log's water intake verbatim, and
the count of exercises with `completed === true`. -/
def calculateTodayStats (today : String) (s : Store) : TodayStats × Store :=
  let r := getTodayLog today s
  let todayLog := r.1
  let init : TodayStats :=
    { caloriesConsumed := 0
      proteinConsumed := 0
      carbsConsumed := 0
      fatConsumed := 0
      waterIntake := todayLog.waterIntake
      completedExercises := (todayLog.exercises.filter fun ex => ex.completed).length }
  (todayLog.meals.foldl statsStep init, r.2)

/-- `handleAddFood` from the Nutrition page (`src/pages/Nutrition.tsx`),
expressed on the daily log it updates: if a meal of `mealType` already
exists (first match by type), append the `(food, quantity)` entry and
recompute all four totals by reducing over the full entry list; else
create a new meal holding the single entry with totals
`food.value * quantity` (the new meal's id is `newId`; in the source it
comes from `addMeal`'s `Date.now()`).  Returns the resulting meal and
the updated log.  `appendRecompute` is the existing-meal branch's
updated meal: entry appended, all four totals recomputed from scratch by
reducing over the full entry list. -/
def appendRecompute (existingMeal : Meal) (food : FoodItem) (quantity : ℚ) :
    Meal :=
  let updatedItems :=
    existingMeal.items ++ [{ item := food, quantity := quantity }]
  { existingMeal with
    items := updatedItems
    totalCalories :=
      updatedItems.foldl (fun sum e => sum + e.item.calories * e.quantity) 0
    totalProtein :=
      updatedItems.foldl (fun sum e => sum + e.item.protein * e.quantity) 0
    totalCarbs :=
      updatedItems.foldl (fun sum e => sum + e.item.carbs * e.quantity) 0
    totalFat :=
      updatedItems.foldl (fun sum e => sum + e.item.fat * e.quantity) 0 }

def handleAddFood (dailyLog : DailyLog) (food : FoodItem) (quantity : ℚ)
    (mealType : MealType) (newId : Nat) : Meal × DailyLog :=
  match dailyLog.meals.find? (fun meal => meal.type == mealType) with
  | some existingMeal =>
      let updatedMeal := appendRecompute existingMeal food quantity
      let updatedMeals := dailyLog.meals.map fun meal =>
        if meal.id == existingMeal.id then updatedMeal else meal
      (updatedMeal, { dailyLog with meals := updatedMeals })
  | none =>
      let newMeal : Meal :=
        { id := newId
          type := mealType
          items := [{ item := food, quantity := quantity }]
          totalCalories := food.calories * quantity
          totalProtein := food.protein * quantity
          totalCarbs := food.carbs * quantity
          totalFat := food.fat * quantity }
      (newMeal, { dailyLog with meals := dailyLog.meals ++ [newMeal] })

/-- Apply a sequence of `handleAddFood` calls for one meal type to a
daily log (the id `newId` is used by whichever call creates the meal). -/
def applyAdds (mealType : MealType) (newId : Nat)
    (adds : List (FoodItem × ℚ)) (log : DailyLog) : DailyLog :=
  adds.foldl (fun l fq => (handleAddFood l fq.1 fq.2 mealType newId).2) log

/-! ## Basic facts about `getTodayLog` -/

/-- The freshly created log `getTodayLog` appends when no log for
`today` exists. -/
def freshLog (today : String) (s : Store) : DailyLog :=
  { date := today, meals := [], exercises := s.exercises, waterIntake := 0,
    weight := none }

theorem getTodayLog_found {today : String} {s : Store} {l : DailyLog}
    (h : s.logs.find? (fun log => log.date == today) = some l) :
    getTodayLog today s = (l, s) := by
  simp [getTodayLog, h]

theorem getTodayLog_not_found {today : String} {s : Store}
    (h : s.logs.find? (fun log => log.date == today) = none) :
    getTodayLog today s =
      (freshLog today s, { s with logs := s.logs ++ [freshLog today s] }) := by
  simp [getTodayLog, h, freshLog]

theorem getTodayLog_date (today : String) (s : Store) :
    (getTodayLog today s).1.date = today := by
  rcases h : s.logs.find? (fun log => log.date == today) with _ | l
  · rw [getTodayLog_not_found h]
    rfl
  · rw [getTodayLog_found h]
    have hp : (l.date == today) = true := by simpa using List.find?_some h
    exact eq_of_beq hp

theorem getTodayLog_foods (today : String) (s : Store) :
    (getTodayLog today s).2.foods = s.foods := by
  rcases h : s.logs.find? (fun log => log.date == today) with _ | l
  · rw [getTodayLog_not_found h]
  · rw [getTodayLog_found h]

theorem getTodayLog_catalog (today : String) (s : Store) :
    (getTodayLog today s).2.exercises = s.exercises := by
  rcases h : s.logs.find? (fun log => log.date == today) with _ | l
  · rw [getTodayLog_not_found h]
  · rw [getTodayLog_found h]

/-- After `getTodayLog`, the stored list's first log dated `today` is
exactly the returned log. -/
theorem getTodayLog_find (today : String) (s : Store) :
    ((getTodayLog today s).2).logs.find? (fun log => log.date == today)
      = some (getTodayLog today s).1 := by
  rcases h : s.logs.find? (fun log => log.date == today) with _ | l
  · rw [getTodayLog_not_found h]
    simp [List.find?_append, h, freshLog]
  · rw [getTodayLog_found h]
    exact h

theorem getTodayLog_mem (today : String) (s : Store) :
    (getTodayLog today s).1 ∈ ((getTodayLog today s).2).logs :=
  List.mem_of_find?_eq_some (getTodayLog_find today s)

/-- Replacing, in a list whose first `today`-dated log is `l`, every log
dated `l.date` by a log `u` also dated `today`, makes `u` the first
`today`-dated log. -/
theorem find?_map_replace {logs : List DailyLog} {l u : DailyLog} {today : String}
    (hfind : logs.find? (fun x => x.date == today) = some l)
    (hu : u.date = today) :
    (logs.map fun x => if x.date == l.date then u else x).find?
      (fun x => x.date == today) = some u := by
  have hl : l.date = today := by
    have hp : (l.date == today) = true := by simpa using List.find?_some hfind
    exact eq_of_beq hp
  induction logs with
  | nil => simp at hfind
  | cons a as ih =>
    by_cases ha : a.date = today
    · have hla : l = a := by
        rw [List.find?_cons_of_pos _ (by simpa using ha)] at hfind
        exact (Option.some.inj hfind).symm
      simp only [List.map_cons]
      rw [if_pos (by simp [ha, hla, hl]),
        List.find?_cons_of_pos _ (by simpa using hu)]
    · rw [List.find?_cons_of_neg _ (by simpa using ha)] at hfind
      simp only [List.map_cons]
      rw [if_neg (by simp [hl]; exact fun hda => ha (hda ▸ rfl)),
        List.find?_cons_of_neg _ (by simpa using ha)]
      exact ih hfind

/-! ## Reduction lemmas for the totals and stats folds -/

/-- The `reduce((sum, e) => sum + f e, a)` pattern equals `a` plus the
sum of `f` over the list. -/
theorem foldl_add_eq_sum {α : Type} (f : α → ℚ) (l : List α) (a : ℚ) :
    l.foldl (fun sum e => sum + f e) a = a + (l.map f).sum := by
  induction l generalizing a with
  | nil => simp
  | cons x xs ih => simp [ih, add_assoc]

/-- Closed form of the `reduce` in `calculateTodayStats`. -/
theorem foldl_statsStep (meals : List Meal) (acc : TodayStats) :
    meals.foldl statsStep acc =
      { caloriesConsumed := acc.caloriesConsumed + (meals.map Meal.totalCalories).sum
        proteinConsumed := acc.proteinConsumed + (meals.map Meal.totalProtein).sum
        carbsConsumed := acc.carbsConsumed + (meals.map Meal.totalCarbs).sum
        fatConsumed := acc.fatConsumed + (meals.map Meal.totalFat).sum
        waterIntake := acc.waterIntake
        completedExercises := acc.completedExercises } := by
  induction meals generalizing acc with
  | nil => simp
  | cons m ms ih => simp [ih, statsStep, add_assoc]

/-! ## What each mutation leaves as "today's log" -/

theorem calculateTodayStats_fields (today : String) (s : Store) :
    (calculateTodayStats today s).1 =
      { caloriesConsumed := (((getTodayLog today s).1).meals.map Meal.totalCalories).sum
        proteinConsumed := (((getTodayLog today s).1).meals.map Meal.totalProtein).sum
        carbsConsumed := (((getTodayLog today s).1).meals.map Meal.totalCarbs).sum
        fatConsumed := (((getTodayLog today s).1).meals.map Meal.totalFat).sum
        waterIntake := ((getTodayLog today s).1).waterIntake
        completedExercises :=
          (((getTodayLog today s).1).exercises.filter fun ex => ex.completed).length } := by
  simp only [calculateTodayStats, foldl_statsStep]
  simp

theorem calculateTodayStats_store (today : String) (s : Store) :
    (calculateTodayStats today s).2 = (getTodayLog today s).2 := rfl

/-- After `updateWaterIntake`, the first stored log dated `today` is the
prior today-log with its water intake replaced. -/
theorem water_getTodayLog (amount : ℚ) (today : String) (s : Store) :
    getTodayLog today ((updateWaterIntake amount today s).2)
      = ({ (getTodayLog today s).1 with waterIntake := amount },
          (updateWaterIntake amount today s).2) := by
  apply getTodayLog_found
  show (waterWriteList amount today s).find? _ = _
  simp only [waterWriteList]
  exact find?_map_replace (getTodayLog_find today s) (getTodayLog_date today s)

/-- After `toggleExerciseCompletion`, the first stored log dated `today`
is the prior today-log with its exercise list toggled. -/
theorem toggle_getTodayLog (exerciseId : Nat) (today : String) (s : Store) :
    getTodayLog today ((toggleExerciseCompletion exerciseId today s).2)
      = ({ (getTodayLog today s).1 with
            exercises := toggledExercises exerciseId today s },
          (toggleExerciseCompletion exerciseId today s).2) := by
  apply getTodayLog_found
  show (toggleWriteList exerciseId today s).find? _ = _
  simp only [toggleWriteList]
  exact find?_map_replace (getTodayLog_find today s) (getTodayLog_date today s)

/-- After `addMeal`, the first stored log dated `today` is the prior
today-log with the new meal appended. -/
theorem addMeal_getTodayLog (meal : MealNoId) (newId : Nat) (today : String)
    (s : Store) :
    getTodayLog today ((addMeal meal newId today s).2)
      = ({ (getTodayLog today s).1 with
            meals := ((getTodayLog today s).1).meals
              ++ [(addMeal meal newId today s).1] },
          (addMeal meal newId today s).2) := by
  apply getTodayLog_found
  show (((getTodayLog today s).2).logs.map _).find? _ = _
  exact find?_map_replace (getTodayLog_find today s) (getTodayLog_date today s)

/-- Positionally, the write-back `map` leaves every log of another date
untouched. -/
theorem map_replace_get_of_ne (logs : List DailyLog) (ldate : String)
    (u : DailyLog) (i : Nat) (hi : i < logs.length)
    (hi2 : i < (logs.map fun log => if log.date == ldate then u else log).length)
    (hne : (logs.get ⟨i, hi⟩).date ≠ ldate) :
    (logs.map fun log => if log.date == ldate then u else log).get ⟨i, hi2⟩
      = logs.get ⟨i, hi⟩ := by
  have hb : ((logs.get ⟨i, hi⟩).date == ldate) = false := by
    simpa using hne
  simp only [List.get_eq_getElem, List.getElem_map] at hne ⊢
  rw [if_neg (by simp [hne])]

/-- A map that fixes every element of a list is the identity on it. -/
theorem map_id_of_fix {α : Type} (f : α → α) (l : List α)
    (h : ∀ a ∈ l, f a = a) : l.map f = l := by
  induction l with
  | nil => rfl
  | cons a as ih =>
      simp only [List.map_cons, h a (by simp)]
      rw [ih fun x hx => h x (by simp [hx])]

/-! ## C4 and C8 -/

/-- C4: `calculateTodayStats` returns the consumed macros as the sums of
the meals' cached `totalCalories`/`totalProtein`/`totalCarbs`/`totalFat`
fields across all meals of today's log, copies the log's `waterIntake`
verbatim, and counts the exercises whose `completed` flag is true — for
any store (hence any prior mutation history). -/
theorem calculateTodayStats_spec (today : String) (s : Store) :
    (calculateTodayStats today s).1.caloriesConsumed
        = (((getTodayLog today s).1).meals.map Meal.totalCalories).sum ∧
    (calculateTodayStats today s).1.proteinConsumed
        = (((getTodayLog today s).1).meals.map Meal.totalProtein).sum ∧
    (calculateTodayStats today s).1.carbsConsumed
        = (((getTodayLog today s).1).meals.map Meal.totalCarbs).sum ∧
    (calculateTodayStats today s).1.fatConsumed
        = (((getTodayLog today s).1).meals.map Meal.totalFat).sum ∧
    (calculateTodayStats today s).1.waterIntake
        = ((getTodayLog today s).1).waterIntake ∧
    (calculateTodayStats today s).1.completedExercises
        = (((getTodayLog today s).1).exercises.filter fun ex => ex.completed).length := by
  rw [calculateTodayStats_fields]
  exact ⟨rfl, rfl, rfl, rfl, rfl, rfl⟩

/-- C8: `updateWaterIntake` stores exactly the amount it is passed — any
rational, with no rejection or clamping — returns it, and a subsequent
`calculateTodayStats` reports that amount as the water intake regardless
of the prior value. -/
theorem updateWaterIntake_spec (amount : ℚ) (today : String) (s : Store) :
    (updateWaterIntake amount today s).1 = amount ∧
    (getTodayLog today ((updateWaterIntake amount today s).2)).1.waterIntake
        = amount ∧
    (calculateTodayStats today ((updateWaterIntake amount today s).2)).1.waterIntake
        = amount := by
  refine ⟨rfl, ?_, ?_⟩
  · rw [water_getTodayLog]
  · rw [calculateTodayStats_fields, water_getTodayLog]

/-! ## Concrete sample data for witnesses and counterexamples -/

/-- A catalog exercise used by the concrete instances below. -/
def sampleExercise : Exercise :=
  { id := 1, name := "Push-ups", duration := none, reps := some 15,
    sets := some 3, completed := false, image := none }

/-- A stored daily log for 2026-10-11 with one uncompleted exercise. -/
def sampleLog : DailyLog :=
  { date := "2026-10-11", meals := [], exercises := [sampleExercise],
    waterIntake := 0, weight := none }

/-- A store holding exactly the sample log. -/
def sampleStore : Store :=
  { logs := [sampleLog], foods := [], exercises := [sampleExercise] }

/-- An empty store (fresh install before any log exists). -/
def emptyStore : Store := { logs := [], foods := [], exercises := [] }

/-! ## C2: lookup-or-create semantics of `getTodayLog` -/

/-- C2: `getTodayLog` looks the stored list up by today's date string;
when absent it appends (and returns) a fresh log with empty meals, water
intake 0 and a snapshot of the exercise catalog; when present it returns
the stored log untouched.  A second call the same day returns a log of
the same date without appending again, and at most one log per date
string is preserved in the backing list. -/
theorem getTodayLog_spec (today : String) (s : Store) :
    ((∀ l ∈ s.logs, l.date ≠ today) →
      getTodayLog today s
        = (freshLog today s, { s with logs := s.logs ++ [freshLog today s] })) ∧
    (∀ l, s.logs.find? (fun log => log.date == today) = some l →
      getTodayLog today s = (l, s)) ∧
    (getTodayLog today ((getTodayLog today s).2)).1.date
        = (getTodayLog today s).1.date ∧
    (getTodayLog today ((getTodayLog today s).2)).2 = (getTodayLog today s).2 ∧
    ((∀ d : String, (s.logs.countP fun l => l.date == d) ≤ 1) →
      ∀ d : String,
        (((getTodayLog today s).2).logs.countP fun l => l.date == d) ≤ 1) := by
  refine ⟨?_, ?_, ?_, ?_, ?_⟩
  · intro habs
    exact getTodayLog_not_found
      (List.find?_eq_none.mpr fun l hl => by simpa using habs l hl)
  · intro l h
    exact getTodayLog_found h
  · rw [getTodayLog_found (getTodayLog_find today s)]
  · rw [getTodayLog_found (getTodayLog_find today s)]
  · intro hinv d
    rcases h : s.logs.find? (fun log => log.date == today) with _ | l
    · rw [getTodayLog_not_found h]
      by_cases hd : d = today
      · subst hd
        have hz : (s.logs.countP fun l => l.date == d) = 0 :=
          List.countP_eq_zero.mpr (by simpa using List.find?_eq_none.mp h)
        simp [List.countP_append, hz, freshLog]
      · have hfd : ((freshLog today s).date == d) = false := by
          simp [freshLog]
          exact fun hc => hd hc.symm
        calc ({ s with logs := s.logs ++ [freshLog today s] }
                : Store).logs.countP (fun l => l.date == d)
            = (s.logs.countP fun l => l.date == d)
                + ([freshLog today s].countP fun l => l.date == d) := by
              simp [List.countP_append]
          _ ≤ 1 := by
              simpa [List.countP_cons, hfd] using hinv d
    · rw [getTodayLog_found h]
      exact hinv d

/-- Witness for C2 at the empty store: today's log is genuinely created
and appended. -/
theorem getTodayLog_spec_witness :
    getTodayLog "2026-10-11" emptyStore
      = (freshLog "2026-10-11" emptyStore,
          { emptyStore with
            logs := emptyStore.logs ++ [freshLog "2026-10-11" emptyStore] }) :=
  (getTodayLog_spec "2026-10-11" emptyStore).1 (by decide)

/-! ## C5: side effects of `calculateTodayStats` -/

/-- C5 counterexample: on a store with no log for today,
`calculateTodayStats` does NOT leave the persisted log list unchanged —
its embedded `getTodayLog` lazily creates and appends today's log. -/
theorem calculateTodayStats_writes_on_first_access :
    ((calculateTodayStats "2026-10-11" emptyStore).2).logs ≠ emptyStore.logs := by
  decide

/-- C5 (amended): `calculateTodayStats` never touches the food list or
the exercise catalog, and leaves the log list unchanged whenever a log
for today already exists; when no log for today exists, its only side
effect is appending the freshly created today-log (lazy creation by
`getTodayLog`). -/
theorem calculateTodayStats_frame (today : String) (s : Store) :
    ((calculateTodayStats today s).2).foods = s.foods ∧
    ((calculateTodayStats today s).2).exercises = s.exercises ∧
    ((∃ l ∈ s.logs, l.date = today) → (calculateTodayStats today s).2 = s) ∧
    ((∀ l ∈ s.logs, l.date ≠ today) →
      ((calculateTodayStats today s).2).logs = s.logs ++ [freshLog today s]) := by
  refine ⟨?_, ?_, ?_, ?_⟩
  · rw [calculateTodayStats_store]
    exact getTodayLog_foods today s
  · rw [calculateTodayStats_store]
    exact getTodayLog_catalog today s
  · rintro ⟨l, hl, hd⟩
    rw [calculateTodayStats_store]
    rcases h : s.logs.find? (fun log => log.date == today) with _ | l'
    · exact absurd (List.find?_eq_none.mp h l hl) (by simp [hd])
    · rw [getTodayLog_found h]
  · intro habs
    rw [calculateTodayStats_store,
      getTodayLog_not_found
        (List.find?_eq_none.mpr fun l hl => by simpa using habs l hl)]

/-- Witness for the amended C5: on a store that already holds today's
log, `calculateTodayStats` leaves the whole store unchanged. -/
theorem calculateTodayStats_frame_witness :
    (calculateTodayStats "2026-10-11" sampleStore).2 = sampleStore :=
  (calculateTodayStats_frame "2026-10-11" sampleStore).2.2.1
    ⟨sampleLog, by decide, by decide⟩

/-! ## C6: exercise snapshot isolation -/

/-- Overwrite the stored exercise catalog (`fitmate_exercises`) — the
catalog mutation of the snapshot-isolation property. -/
def setCatalog (cat : List Exercise) (s : Store) : Store :=
  { s with exercises := cat }

/-- C6: once today's log has been created by `getTodayLog`, replacing
the stored exercise catalog neither changes any stored log nor the
exercise list (with its completion states) that a subsequent
`getTodayLog` returns for that day: the day's snapshot is decoupled from
later catalog changes. -/
theorem exerciseSnapshot_isolated (today : String) (s : Store)
    (cat : List Exercise) :
    (setCatalog cat ((getTodayLog today s).2)).logs
        = ((getTodayLog today s).2).logs ∧
    (getTodayLog today (setCatalog cat ((getTodayLog today s).2))).1.exercises
        = ((getTodayLog today s).1).exercises := by
  refine ⟨rfl, ?_⟩
  have h : (setCatalog cat ((getTodayLog today s).2)).logs.find?
      (fun log => log.date == today) = some (getTodayLog today s).1 :=
    getTodayLog_find today s
  rw [getTodayLog_found h]

/-! ## C7: toggling exercise completion -/

/-- Applying the toggle update twice restores an exercise exactly. -/
theorem toggleIfMatch_involutive (exerciseId : Nat) (ex : Exercise) :
    toggleIfMatch exerciseId (toggleIfMatch exerciseId ex) = ex := by
  cases ex with
  | mk id name duration reps sts completed image =>
      by_cases h : id == exerciseId <;> simp [toggleIfMatch, h]

/-- When no exercise matches, the toggle map is the identity. -/
theorem toggledExercises_of_absent (exerciseId : Nat) (today : String)
    (s : Store)
    (h : ∀ ex ∈ ((getTodayLog today s).1).exercises, ex.id ≠ exerciseId) :
    toggledExercises exerciseId today s = ((getTodayLog today s).1).exercises :=
  map_id_of_fix _ _ fun ex hx => by simp [toggleIfMatch, h ex hx]

/-- C7: `toggleExerciseCompletion` flips the `completed` flag of exactly
the exercise of today's log whose id matches (positionally: matching
entries are flipped, all others returned untouched), is a silent no-op
returning the list unchanged when no id matches, never modifies the
exercise catalog, the food list, or any other day's stored log, and
applied twice with the same id restores every exercise to its original
state. -/
theorem toggleExerciseCompletion_spec (exerciseId : Nat) (today : String)
    (s : Store) :
    (toggleExerciseCompletion exerciseId today s).1.length
        = ((getTodayLog today s).1).exercises.length ∧
    (∀ i (hi : i < ((getTodayLog today s).1).exercises.length)
        (hi2 : i < (toggleExerciseCompletion exerciseId today s).1.length),
      ((((getTodayLog today s).1).exercises.get ⟨i, hi⟩).id = exerciseId →
        (toggleExerciseCompletion exerciseId today s).1.get ⟨i, hi2⟩
          = { ((getTodayLog today s).1).exercises.get ⟨i, hi⟩ with
              completed :=
                !(((getTodayLog today s).1).exercises.get ⟨i, hi⟩).completed }) ∧
      ((((getTodayLog today s).1).exercises.get ⟨i, hi⟩).id ≠ exerciseId →
        (toggleExerciseCompletion exerciseId today s).1.get ⟨i, hi2⟩
          = ((getTodayLog today s).1).exercises.get ⟨i, hi⟩)) ∧
    ((∀ ex ∈ ((getTodayLog today s).1).exercises, ex.id ≠ exerciseId) →
      (toggleExerciseCompletion exerciseId today s).1
        = ((getTodayLog today s).1).exercises) ∧
    ((toggleExerciseCompletion exerciseId today s).2).exercises = s.exercises ∧
    ((toggleExerciseCompletion exerciseId today s).2).foods = s.foods ∧
    ((toggleExerciseCompletion exerciseId today s).2).logs.length
        = ((getTodayLog today s).2).logs.length ∧
    (∀ i (hi : i < ((getTodayLog today s).2).logs.length)
        (hi2 : i < ((toggleExerciseCompletion exerciseId today s).2).logs.length),
      (((getTodayLog today s).2).logs.get ⟨i, hi⟩).date ≠ today →
        ((toggleExerciseCompletion exerciseId today s).2).logs.get ⟨i, hi2⟩
          = ((getTodayLog today s).2).logs.get ⟨i, hi⟩) ∧
    (toggleExerciseCompletion exerciseId today
        ((toggleExerciseCompletion exerciseId today s).2)).1
      = ((getTodayLog today s).1).exercises := by
  refine ⟨?_, ?_, ?_, ?_, ?_, ?_, ?_, ?_⟩
  · show (toggledExercises exerciseId today s).length = _
    simp [toggledExercises]
  · intro i hi hi2
    constructor
    · intro hmatch
      show (toggledExercises exerciseId today s).get ⟨i, hi2⟩ = _
      simp only [toggledExercises, List.get_eq_getElem, List.getElem_map] at *
      simp [toggleIfMatch, hmatch]
    · intro hmiss
      show (toggledExercises exerciseId today s).get ⟨i, hi2⟩ = _
      simp only [toggledExercises, List.get_eq_getElem, List.getElem_map] at *
      simp [toggleIfMatch, hmiss]
  · exact toggledExercises_of_absent exerciseId today s
  · show (writeLogs (toggleWriteList exerciseId today s)
        ((getTodayLog today s).2)).exercises = _
    show ((getTodayLog today s).2).exercises = _
    exact getTodayLog_catalog today s
  · show ((getTodayLog today s).2).foods = _
    exact getTodayLog_foods today s
  · show (toggleWriteList exerciseId today s).length = _
    simp [toggleWriteList]
  · intro i hi hi2 hne
    show (toggleWriteList exerciseId today s).get _ = _
    have hne' : ((((getTodayLog today s).2).logs.get ⟨i, hi⟩)).date
        ≠ ((getTodayLog today s).1).date := by
      rw [getTodayLog_date]
      exact hne
    exact map_replace_get_of_ne ((getTodayLog today s).2).logs
      ((getTodayLog today s).1).date _ i hi hi2 hne'
  · show toggledExercises exerciseId today
        ((toggleExerciseCompletion exerciseId today s).2) = _
    unfold toggledExercises
    rw [toggle_getTodayLog]
    show (toggledExercises exerciseId today s).map (toggleIfMatch exerciseId) = _
    unfold toggledExercises
    rw [List.map_map]
    exact map_id_of_fix _ _ fun ex _ => toggleIfMatch_involutive exerciseId ex

/-- Witness for C7: toggling the sample exercise twice restores the
original sample list, and toggling an absent id is a no-op. -/
theorem toggleExerciseCompletion_spec_witness :
    (toggleExerciseCompletion 99 "2026-10-11" sampleStore).1
      = [sampleExercise] :=
  (toggleExerciseCompletion_spec 99 "2026-10-11" sampleStore).2.2.1 (by decide)

/-! ## C9: each mutation touches only the field it owns -/

/-- A second stored day, used to check that mutations of today leave
other dates untouched. -/
def otherLog : DailyLog :=
  { date := "2026-10-10", meals := [], exercises := [], waterIntake := 3,
    weight := none }

/-- A store holding yesterday's and today's logs. -/
def twoDayStore : Store :=
  { logs := [otherLog, sampleLog], foods := [], exercises := [sampleExercise] }

/-- A meal payload for concrete `addMeal` instances. -/
def sampleMealNoId : MealNoId :=
  { type := .breakfast, items := [], totalCalories := 0, totalProtein := 0,
    totalCarbs := 0, totalFat := 0 }

/-- C9: `addMeal` leaves today's water intake, exercises and date
unchanged; `updateWaterIntake` leaves today's meals, exercises and date
unchanged; `toggleExerciseCompletion` leaves today's meals, water intake
and date unchanged and alters no field of any exercise except the
`completed` flag of matched ones; and all three leave every stored log
of another date untouched (positionally, with the backing list's length
preserved). -/
theorem mutation_frame_spec (meal : MealNoId) (newId : Nat) (amount : ℚ)
    (exerciseId : Nat) (today : String) (s : Store) :
    (getTodayLog today ((addMeal meal newId today s).2)).1.waterIntake
        = ((getTodayLog today s).1).waterIntake ∧
    (getTodayLog today ((addMeal meal newId today s).2)).1.exercises
        = ((getTodayLog today s).1).exercises ∧
    (getTodayLog today ((addMeal meal newId today s).2)).1.date
        = ((getTodayLog today s).1).date ∧
    ((addMeal meal newId today s).2).logs.length
        = ((getTodayLog today s).2).logs.length ∧
    (∀ i (hi : i < ((getTodayLog today s).2).logs.length)
        (hi2 : i < ((addMeal meal newId today s).2).logs.length),
      (((getTodayLog today s).2).logs.get ⟨i, hi⟩).date ≠ today →
        ((addMeal meal newId today s).2).logs.get ⟨i, hi2⟩
          = ((getTodayLog today s).2).logs.get ⟨i, hi⟩) ∧
    (getTodayLog today ((updateWaterIntake amount today s).2)).1.meals
        = ((getTodayLog today s).1).meals ∧
    (getTodayLog today ((updateWaterIntake amount today s).2)).1.exercises
        = ((getTodayLog today s).1).exercises ∧
    (getTodayLog today ((updateWaterIntake amount today s).2)).1.date
        = ((getTodayLog today s).1).date ∧
    ((updateWaterIntake amount today s).2).logs.length
        = ((getTodayLog today s).2).logs.length ∧
    (∀ i (hi : i < ((getTodayLog today s).2).logs.length)
        (hi2 : i < ((updateWaterIntake amount today s).2).logs.length),
      (((getTodayLog today s).2).logs.get ⟨i, hi⟩).date ≠ today →
        ((updateWaterIntake amount today s).2).logs.get ⟨i, hi2⟩
          = ((getTodayLog today s).2).logs.get ⟨i, hi⟩) ∧
    (getTodayLog today ((toggleExerciseCompletion exerciseId today s).2)).1.meals
        = ((getTodayLog today s).1).meals ∧
    (getTodayLog today ((toggleExerciseCompletion exerciseId today s).2)).1.waterIntake
        = ((getTodayLog today s).1).waterIntake ∧
    (getTodayLog today ((toggleExerciseCompletion exerciseId today s).2)).1.date
        = ((getTodayLog today s).1).date ∧
    ((toggleExerciseCompletion exerciseId today s).2).logs.length
        = ((getTodayLog today s).2).logs.length ∧
    (∀ i (hi : i < ((getTodayLog today s).2).logs.length)
        (hi2 : i < ((toggleExerciseCompletion exerciseId today s).2).logs.length),
      (((getTodayLog today s).2).logs.get ⟨i, hi⟩).date ≠ today →
        ((toggleExerciseCompletion exerciseId today s).2).logs.get ⟨i, hi2⟩
          = ((getTodayLog today s).2).logs.get ⟨i, hi⟩) ∧
    (∀ i (hi : i < ((getTodayLog today s).1).exercises.length)
        (hi2 : i <
          (getTodayLog today
            ((toggleExerciseCompletion exerciseId today s).2)).1.exercises.length),
      ((getTodayLog today
          ((toggleExerciseCompletion exerciseId today s).2)).1.exercises.get
            ⟨i, hi2⟩).id = (((getTodayLog today s).1).exercises.get ⟨i, hi⟩).id ∧
      ((getTodayLog today
          ((toggleExerciseCompletion exerciseId today s).2)).1.exercises.get
            ⟨i, hi2⟩).name
        = (((getTodayLog today s).1).exercises.get ⟨i, hi⟩).name ∧
      ((getTodayLog today
          ((toggleExerciseCompletion exerciseId today s).2)).1.exercises.get
            ⟨i, hi2⟩).duration
        = (((getTodayLog today s).1).exercises.get ⟨i, hi⟩).duration ∧
      ((getTodayLog today
          ((toggleExerciseCompletion exerciseId today s).2)).1.exercises.get
            ⟨i, hi2⟩).reps
        = (((getTodayLog today s).1).exercises.get ⟨i, hi⟩).reps ∧
      ((getTodayLog today
          ((toggleExerciseCompletion exerciseId today s).2)).1.exercises.get
            ⟨i, hi2⟩).sets
        = (((getTodayLog today s).1).exercises.get ⟨i, hi⟩).sets ∧
      ((getTodayLog today
          ((toggleExerciseCompletion exerciseId today s).2)).1.exercises.get
            ⟨i, hi2⟩).image
        = (((getTodayLog today s).1).exercises.get ⟨i, hi⟩).image ∧
      ((((getTodayLog today s).1).exercises.get ⟨i, hi⟩).id ≠ exerciseId →
        ((getTodayLog today
            ((toggleExerciseCompletion exerciseId today s).2)).1.exercises.get
              ⟨i, hi2⟩).completed
          = (((getTodayLog today s).1).exercises.get ⟨i, hi⟩).completed)) := by
  have hmapA := addMeal_getTodayLog meal newId today s
  have hmapW := water_getTodayLog amount today s
  have hmapT := toggle_getTodayLog exerciseId today s
  refine ⟨?_, ?_, ?_, ?_, ?_, ?_, ?_, ?_, ?_, ?_, ?_, ?_, ?_, ?_, ?_, ?_⟩
  · rw [hmapA]
  · rw [hmapA]
  · rw [hmapA]
  · show (((getTodayLog today s).2).logs.map _).length = _
    simp
  · intro i hi hi2 hne
    have hne' : ((((getTodayLog today s).2).logs.get ⟨i, hi⟩)).date
        ≠ ((getTodayLog today s).1).date := by
      rw [getTodayLog_date]; exact hne
    exact map_replace_get_of_ne ((getTodayLog today s).2).logs
      ((getTodayLog today s).1).date _ i hi hi2 hne'
  · rw [hmapW]
  · rw [hmapW]
  · rw [hmapW]
  · show (waterWriteList amount today s).length = _
    simp [waterWriteList]
  · intro i hi hi2 hne
    have hne' : ((((getTodayLog today s).2).logs.get ⟨i, hi⟩)).date
        ≠ ((getTodayLog today s).1).date := by
      rw [getTodayLog_date]; exact hne
    exact map_replace_get_of_ne ((getTodayLog today s).2).logs
      ((getTodayLog today s).1).date _ i hi hi2 hne'
  · rw [hmapT]
  · rw [hmapT]
  · rw [hmapT]
  · show (toggleWriteList exerciseId today s).length = _
    simp [toggleWriteList]
  · intro i hi hi2 hne
    have hne' : ((((getTodayLog today s).2).logs.get ⟨i, hi⟩)).date
        ≠ ((getTodayLog today s).1).date := by
      rw [getTodayLog_date]; exact hne
    exact map_replace_get_of_ne ((getTodayLog today s).2).logs
      ((getTodayLog today s).1).date _ i hi hi2 hne'
  · intro i hi hi2
    have hex : (getTodayLog today
        ((toggleExerciseCompletion exerciseId today s).2)).1.exercises
        = toggledExercises exerciseId today s := by rw [hmapT]
    simp only [List.get_eq_getElem]
    rw [List.getElem_of_eq hex hi2]
    simp only [toggledExercises, List.getElem_map]
    unfold toggleIfMatch
    by_cases h : (((getTodayLog today s).1).exercises[i]).id == exerciseId
    · have hid : (((getTodayLog today s).1).exercises[i]).id = exerciseId := by
        simpa using h
      simp [h, hid]
    · simp [h]

/-- Witness for C9: updating today's water in a two-day store leaves the
stored log of 2026-10-10 untouched at its position. -/
theorem mutation_frame_spec_witness :
    ((updateWaterIntake 7 "2026-10-11" twoDayStore).2).logs.get ⟨0, by decide⟩
      = ((getTodayLog "2026-10-11" twoDayStore).2).logs.get ⟨0, by decide⟩ :=
  (mutation_frame_spec sampleMealNoId 42 7 1 "2026-10-11" twoDayStore).2.2.2.2.2.2.2.2.2.1
    0 (by decide) (by decide) (by decide)

/-! ## C10: the lost-update race of read-modify-write mutations -/

/-- C10: every mutation re-reads the whole log list and writes the whole
patched list back; when the read phases of `updateWaterIntake(5)` and
`toggleExerciseCompletion(1)` both see the same snapshot and the toggle's
write lands last, the final state has water intake 0 — the water update
is silently lost (last-write-wins) — while run sequentially it would be
5.  (The definitional conjuncts record that the sequential operations
are exactly these read/write phases composed back-to-back.) -/
theorem lost_update_race :
    (updateWaterIntake 5 "2026-10-11" sampleStore).2
        = writeLogs (waterWriteList 5 "2026-10-11" sampleStore)
            (getTodayLog "2026-10-11" sampleStore).2 ∧
    (toggleExerciseCompletion 1 "2026-10-11" sampleStore).2
        = writeLogs (toggleWriteList 1 "2026-10-11" sampleStore)
            (getTodayLog "2026-10-11" sampleStore).2 ∧
    (getTodayLog "2026-10-11"
        (updateWaterIntake 5 "2026-10-11" sampleStore).2).1.waterIntake = 5 ∧
    (getTodayLog "2026-10-11"
        (writeLogs (toggleWriteList 1 "2026-10-11" sampleStore)
          (writeLogs (waterWriteList 5 "2026-10-11" sampleStore)
            sampleStore))).1.waterIntake = 0 ∧
    (getTodayLog "2026-10-11"
        (writeLogs (toggleWriteList 1 "2026-10-11" sampleStore)
          (writeLogs (waterWriteList 5 "2026-10-11" sampleStore)
            sampleStore))).1.exercises
      = [{ sampleExercise with completed := true }] := by
  refine ⟨rfl, rfl, ?_, ?_, ?_⟩ <;> decide

/-! ## Adding food to a meal: entry bookkeeping -/

/-- The `MealEntry` corresponding to an added `(food, quantity)` pair. -/
def entryOf (fq : FoodItem × ℚ) : MealEntry :=
  { item := fq.1, quantity := fq.2 }

/-- The meal created by `handleAddFood`'s no-existing-meal branch
(totals written `perServingValue * quantity`, as in the source). -/
def firstMeal (t : MealType) (newId : Nat) (a : FoodItem × ℚ) : Meal :=
  { id := newId
    type := t
    items := [entryOf a]
    totalCalories := a.1.calories * a.2
    totalProtein := a.1.protein * a.2
    totalCarbs := a.1.carbs * a.2
    totalFat := a.1.fat * a.2 }

/-- The meal obtained from `m` after a batch of further adds, with all
four totals recomputed over the full entry list (written
`quantity * perServingValue`, as the spec states them). -/
def extendMeal (m : Meal) (adds : List (FoodItem × ℚ)) : Meal :=
  { m with
    items := m.items ++ adds.map entryOf
    totalCalories :=
      (((m.items ++ adds.map entryOf).map
        fun e => e.quantity * e.item.calories).sum)
    totalProtein :=
      (((m.items ++ adds.map entryOf).map
        fun e => e.quantity * e.item.protein).sum)
    totalCarbs :=
      (((m.items ++ adds.map entryOf).map
        fun e => e.quantity * e.item.carbs).sum)
    totalFat :=
      (((m.items ++ adds.map entryOf).map
        fun e => e.quantity * e.item.fat).sum) }

theorem find?_last {α : Type} (p : α → Bool) (l : List α) (x : α)
    (hl : ∀ a ∈ l, ¬ p a) (hx : p x) :
    (l ++ [x]).find? p = some x := by
  rw [List.find?_append, List.find?_eq_none.mpr hl]
  simp [hx]

/-- Replacing by id in `pre ++ [m]` when no id in `pre` collides touches
exactly the last element. -/
theorem map_replace_by_id (pre : List Meal) (m u : Meal)
    (hpre : ∀ x ∈ pre, x.id ≠ m.id) :
    ((pre ++ [m]).map fun meal => if meal.id == m.id then u else meal)
      = pre ++ [u] := by
  rw [List.map_append]
  congr 1
  · exact map_id_of_fix _ _ fun x hx => by simp [hpre x hx]
  · simp

/-- The `reduce((sum, e) => sum + g e, 0)` pattern is the sum of `g`. -/
theorem foldl_total (g : MealEntry → ℚ) (items : List MealEntry) :
    items.foldl (fun sum e => sum + g e) 0 = (items.map g).sum := by
  rw [foldl_add_eq_sum g]
  exact zero_add _

theorem sum_map_congr {α : Type} (f g : α → ℚ) (l : List α)
    (h : ∀ a, f a = g a) : (l.map f).sum = (l.map g).sum := by
  induction l with
  | nil => rfl
  | cons a as ih => simp only [List.map_cons, List.sum_cons, h a, ih]


/-- The existing-meal branch's updated meal is `extendMeal` by a single
pair: same id and type, entry appended, totals recomputed (the source's
`reduce` in `value * quantity` order equals the spec's
`quantity * value` sum). -/
theorem appendRecompute_eq_extendMeal (m : Meal) (food : FoodItem) (q : ℚ) :
    appendRecompute m food q = extendMeal m [(food, q)] := by
  simp only [appendRecompute, extendMeal, List.map_cons, List.map_nil, entryOf]
  rw [Meal.mk.injEq]
  refine ⟨rfl, rfl, rfl, ?_, ?_, ?_, ?_⟩
  · exact (foldl_total (fun e => e.item.calories * e.quantity) _).trans
      (sum_map_congr _ _ _ fun e => mul_comm _ _)
  · exact (foldl_total (fun e => e.item.protein * e.quantity) _).trans
      (sum_map_congr _ _ _ fun e => mul_comm _ _)
  · exact (foldl_total (fun e => e.item.carbs * e.quantity) _).trans
      (sum_map_congr _ _ _ fun e => mul_comm _ _)
  · exact (foldl_total (fun e => e.item.fat * e.quantity) _).trans
      (sum_map_congr _ _ _ fun e => mul_comm _ _)

/-- One `handleAddFood` call on a log whose only meal of type `t` is the
final meal `m` (no other meal shares its type or id): the pair is
appended to `m`, the recomputed meal replaces `m`, nothing else moves. -/
theorem handleAddFood_existing_step (log₀ : DailyLog) (m : Meal)
    (t : MealType) (newId : Nat) (food : FoodItem) (q : ℚ)
    (hty : ∀ x ∈ log₀.meals, x.type ≠ t) (hm : m.type = t)
    (hid : ∀ x ∈ log₀.meals, x.id ≠ m.id) :
    handleAddFood { log₀ with meals := log₀.meals ++ [m] } food q t newId
      = (extendMeal m [(food, q)],
          { log₀ with meals := log₀.meals ++ [extendMeal m [(food, q)]] }) := by
  have hfind : (log₀.meals ++ [m]).find? (fun meal => meal.type == t)
      = some m :=
    find?_last _ _ _ (fun a ha => by simp [hty a ha]) (by simp [hm])
  simp only [handleAddFood, hfind, appendRecompute_eq_extendMeal]
  rw [map_replace_by_id log₀.meals m _ hid]

theorem extendMeal_nil (m : Meal)
    (hc : m.totalCalories = ((m.items.map fun e => e.quantity * e.item.calories).sum))
    (hp : m.totalProtein = ((m.items.map fun e => e.quantity * e.item.protein).sum))
    (hcb : m.totalCarbs = ((m.items.map fun e => e.quantity * e.item.carbs).sum))
    (hf : m.totalFat = ((m.items.map fun e => e.quantity * e.item.fat).sum)) :
    extendMeal m [] = m := by
  cases m
  simp_all [extendMeal]

theorem extendMeal_extendMeal (m : Meal) (a : FoodItem × ℚ)
    (rest : List (FoodItem × ℚ)) :
    extendMeal (extendMeal m [a]) rest = extendMeal m (a :: rest) := by
  cases m
  simp [extendMeal, List.append_assoc]

/-- Folding further adds over a log whose meal of type `t` is the final
meal `m` (already well-totaled) extends `m` entry by entry. -/
theorem applyAdds_existing (t : MealType) (newId : Nat) (log₀ : DailyLog)
    (hty : ∀ x ∈ log₀.meals, x.type ≠ t)
    (hid : ∀ x ∈ log₀.meals, x.id ≠ newId)
    (adds : List (FoodItem × ℚ)) :
    ∀ m : Meal, m.type = t → m.id = newId →
      m.totalCalories = ((m.items.map fun e => e.quantity * e.item.calories).sum) →
      m.totalProtein = ((m.items.map fun e => e.quantity * e.item.protein).sum) →
      m.totalCarbs = ((m.items.map fun e => e.quantity * e.item.carbs).sum) →
      m.totalFat = ((m.items.map fun e => e.quantity * e.item.fat).sum) →
      applyAdds t newId adds { log₀ with meals := log₀.meals ++ [m] }
        = { log₀ with meals := log₀.meals ++ [extendMeal m adds] } := by
  induction adds with
  | nil =>
      intro m hmt hmid hc hp hcb hf
      show ({ log₀ with meals := log₀.meals ++ [m] } : DailyLog) = _
      rw [extendMeal_nil m hc hp hcb hf]
  | cons a rest ih =>
      intro m hmt hmid hc hp hcb hf
      show applyAdds t newId rest
          (handleAddFood { log₀ with meals := log₀.meals ++ [m] }
            a.1 a.2 t newId).2 = _
      rw [handleAddFood_existing_step log₀ m t newId a.1 a.2 hty hmt
        (fun x hx => by rw [hmid]; exact hid x hx)]
      rw [ih (extendMeal m [(a.1, a.2)]) hmt hmid rfl rfl rfl rfl]
      rw [extendMeal_extendMeal]

/-- A nonempty sequence of same-type adds on a log holding no meal of
that type creates one meal at the end of the list and extends it entry
by entry. -/
theorem applyAdds_char (t : MealType) (newId : Nat) (log₀ : DailyLog)
    (hty : ∀ x ∈ log₀.meals, x.type ≠ t)
    (hid : ∀ x ∈ log₀.meals, x.id ≠ newId)
    (a : FoodItem × ℚ) (rest : List (FoodItem × ℚ)) :
    applyAdds t newId (a :: rest) log₀
      = { log₀ with
          meals := log₀.meals ++ [extendMeal (firstMeal t newId a) rest] } := by
  have hnone : log₀.meals.find? (fun meal => meal.type == t) = none :=
    List.find?_eq_none.mpr fun x hx => by simp [hty x hx]
  show applyAdds t newId rest (handleAddFood log₀ a.1 a.2 t newId).2 = _
  have hstep : (handleAddFood log₀ a.1 a.2 t newId).2
      = { log₀ with meals := log₀.meals ++ [firstMeal t newId a] } := by
    simp only [handleAddFood, hnone, firstMeal, entryOf]
  rw [hstep]
  exact applyAdds_existing t newId log₀ hty hid rest (firstMeal t newId a)
    rfl rfl (by simp [firstMeal, entryOf, mul_comm])
    (by simp [firstMeal, entryOf, mul_comm])
    (by simp [firstMeal, entryOf, mul_comm])
    (by simp [firstMeal, entryOf, mul_comm])

/-- C1: for every sequence of same-type adds within one day, the
resulting meal's four cached totals equal the sum over all of its
entries of `quantity * perServingValue`, and the totals are independent
of the order in which the entries were added. -/
theorem addFood_totals_order_independent (t : MealType) (newId : Nat)
    (log₀ : DailyLog)
    (hty : ∀ x ∈ log₀.meals, x.type ≠ t)
    (hid : ∀ x ∈ log₀.meals, x.id ≠ newId)
    (adds adds' : List (FoodItem × ℚ)) (hne : adds ≠ [])
    (hperm : adds.Perm adds') :
    ∃ m m' : Meal,
      (applyAdds t newId adds log₀).meals = log₀.meals ++ [m] ∧
      (applyAdds t newId adds' log₀).meals = log₀.meals ++ [m'] ∧
      m.type = t ∧ m'.type = t ∧
      m.items = adds.map entryOf ∧ m'.items = adds'.map entryOf ∧
      m.totalCalories = ((m.items.map fun e => e.quantity * e.item.calories).sum) ∧
      m.totalProtein = ((m.items.map fun e => e.quantity * e.item.protein).sum) ∧
      m.totalCarbs = ((m.items.map fun e => e.quantity * e.item.carbs).sum) ∧
      m.totalFat = ((m.items.map fun e => e.quantity * e.item.fat).sum) ∧
      m'.totalCalories = m.totalCalories ∧
      m'.totalProtein = m.totalProtein ∧
      m'.totalCarbs = m.totalCarbs ∧
      m'.totalFat = m.totalFat := by
  rcases adds with _ | ⟨a, rest⟩
  · exact absurd rfl hne
  rcases adds' with _ | ⟨b, rest2⟩
  · exact absurd (List.Perm.eq_nil hperm) (by simp)
  refine ⟨extendMeal (firstMeal t newId a) rest,
    extendMeal (firstMeal t newId b) rest2,
    ?_, ?_, rfl, rfl, rfl, rfl, rfl, rfl, rfl, rfl, ?_, ?_, ?_, ?_⟩
  · rw [applyAdds_char t newId log₀ hty hid a rest]
  · rw [applyAdds_char t newId log₀ hty hid b rest2]
  · exact (List.Perm.sum_eq ((hperm.map entryOf).map
      fun e => e.quantity * e.item.calories)).symm
  · exact (List.Perm.sum_eq ((hperm.map entryOf).map
      fun e => e.quantity * e.item.protein)).symm
  · exact (List.Perm.sum_eq ((hperm.map entryOf).map
      fun e => e.quantity * e.item.carbs)).symm
  · exact (List.Perm.sum_eq ((hperm.map entryOf).map
      fun e => e.quantity * e.item.fat)).symm

/-- C3: with a positive quantity and distinct meal ids, adding a food
pair when a meal of the type already exists appends the entry to it,
recomputes all four totals from scratch over the full entry list, and
replaces exactly that meal in place in the day's meal list; when no such
meal exists, a new meal with the single entry and totals
`quantity * perServingValue` is appended to the day's meal list.  The
resulting meal is returned in both cases. -/
theorem handleAddFood_spec (dailyLog : DailyLog) (food : FoodItem)
    (quantity : ℚ) (t : MealType) (newId : Nat)
    (hq : 0 < quantity)
    (huniq : dailyLog.meals.Pairwise fun a b => a.id ≠ b.id) :
    (∀ ex, dailyLog.meals.find? (fun meal => meal.type == t) = some ex →
      (handleAddFood dailyLog food quantity t newId).1.items
          = ex.items ++ [{ item := food, quantity := quantity }] ∧
      (handleAddFood dailyLog food quantity t newId).1.id = ex.id ∧
      (handleAddFood dailyLog food quantity t newId).1.type = ex.type ∧
      (handleAddFood dailyLog food quantity t newId).1.totalCalories
        = (((handleAddFood dailyLog food quantity t newId).1.items.map
            fun e => e.quantity * e.item.calories).sum) ∧
      (handleAddFood dailyLog food quantity t newId).1.totalProtein
        = (((handleAddFood dailyLog food quantity t newId).1.items.map
            fun e => e.quantity * e.item.protein).sum) ∧
      (handleAddFood dailyLog food quantity t newId).1.totalCarbs
        = (((handleAddFood dailyLog food quantity t newId).1.items.map
            fun e => e.quantity * e.item.carbs).sum) ∧
      (handleAddFood dailyLog food quantity t newId).1.totalFat
        = (((handleAddFood dailyLog food quantity t newId).1.items.map
            fun e => e.quantity * e.item.fat).sum) ∧
      ∃ pre post, dailyLog.meals = pre ++ ex :: post ∧
        (handleAddFood dailyLog food quantity t newId).2.meals
          = pre ++ (handleAddFood dailyLog food quantity t newId).1 :: post) ∧
    ((∀ mm ∈ dailyLog.meals, mm.type ≠ t) →
      (handleAddFood dailyLog food quantity t newId).1.items
          = [{ item := food, quantity := quantity }] ∧
      (handleAddFood dailyLog food quantity t newId).1.type = t ∧
      (handleAddFood dailyLog food quantity t newId).1.id = newId ∧
      (handleAddFood dailyLog food quantity t newId).1.totalCalories
          = quantity * food.calories ∧
      (handleAddFood dailyLog food quantity t newId).1.totalProtein
          = quantity * food.protein ∧
      (handleAddFood dailyLog food quantity t newId).1.totalCarbs
          = quantity * food.carbs ∧
      (handleAddFood dailyLog food quantity t newId).1.totalFat
          = quantity * food.fat ∧
      (handleAddFood dailyLog food quantity t newId).2.meals
          = dailyLog.meals
              ++ [(handleAddFood dailyLog food quantity t newId).1]) := by
  constructor
  · intro ex hsome
    have h1 : (handleAddFood dailyLog food quantity t newId).1
        = appendRecompute ex food quantity := by
      simp only [handleAddFood, hsome]
    obtain ⟨hpb, as, bs, hdec, hall⟩ := List.find?_eq_some.mp hsome
    rw [hdec] at huniq
    obtain ⟨pas, pexbs, hcross⟩ := List.pairwise_append.mp huniq
    have hexbs : ∀ y ∈ bs, ex.id ≠ y.id := (List.pairwise_cons.mp pexbs).1
    have has : ∀ x ∈ as, (x.id == ex.id) = false := fun x hx => by
      simp [hcross x hx ex (List.mem_cons_self _ _)]
    have hbs : ∀ y ∈ bs, (y.id == ex.id) = false := fun y hy => by
      simp [(hexbs y hy).symm]
    have h2 : (handleAddFood dailyLog food quantity t newId).2.meals
        = as ++ appendRecompute ex food quantity :: bs := by
      simp only [handleAddFood, hsome]
      show dailyLog.meals.map _ = _
      rw [hdec, List.map_append, List.map_cons]
      rw [map_id_of_fix _ as fun x hx => by simp [has x hx]]
      rw [if_pos (by simp)]
      rw [map_id_of_fix _ bs fun y hy => by simp [hbs y hy]]
    rw [h1, appendRecompute_eq_extendMeal]
    refine ⟨rfl, rfl, rfl, rfl, rfl, rfl, rfl, as, bs, hdec, ?_⟩
    rw [h2, appendRecompute_eq_extendMeal]
  · intro habs
    have hnone : dailyLog.meals.find? (fun meal => meal.type == t) = none :=
      List.find?_eq_none.mpr fun x hx => by simp [habs x hx]
    refine ⟨?_, ?_, ?_, ?_, ?_, ?_, ?_, ?_⟩ <;>
      simp only [handleAddFood, hnone] <;>
      first
        | rfl
        | exact mul_comm _ _

/-- The chicken-breast food item of the spec's worked example. -/
def chicken : FoodItem :=
  { id := 1, name := "Chicken Breast", calories := 165, protein := 31,
    carbs := 0, fat := 3.6, serving := "100g" }

/-- A day log with no meals yet. -/
def emptyDayLog : DailyLog :=
  { date := "2026-10-11", meals := [], exercises := [], waterIntake := 0,
    weight := none }

/-- Witness for C1 at the spec's example: adding chicken breast
(165 kcal, 31 g protein, 0 g carbs, 3.6 g fat) at quantity 2 to an empty
breakfast meal yields totals 330 / 62 / 0 / 7.2. -/
theorem addFood_totals_order_independent_witness :
    ([((chicken : FoodItem), (2 : ℚ))] ≠ []) ∧
    (∃ m m' : Meal,
      (applyAdds .breakfast 7 [(chicken, 2)] emptyDayLog).meals
          = emptyDayLog.meals ++ [m] ∧
      (applyAdds .breakfast 7 [(chicken, 2)] emptyDayLog).meals
          = emptyDayLog.meals ++ [m'] ∧
      m.type = .breakfast ∧ m'.type = .breakfast ∧
      m.items = [((chicken : FoodItem), (2 : ℚ))].map entryOf ∧
      m'.items = [((chicken : FoodItem), (2 : ℚ))].map entryOf ∧
      m.totalCalories = ((m.items.map fun e => e.quantity * e.item.calories).sum) ∧
      m.totalProtein = ((m.items.map fun e => e.quantity * e.item.protein).sum) ∧
      m.totalCarbs = ((m.items.map fun e => e.quantity * e.item.carbs).sum) ∧
      m.totalFat = ((m.items.map fun e => e.quantity * e.item.fat).sum) ∧
      m'.totalCalories = m.totalCalories ∧
      m'.totalProtein = m.totalProtein ∧
      m'.totalCarbs = m.totalCarbs ∧
      m'.totalFat = m.totalFat) ∧
    (applyAdds .breakfast 7 [(chicken, 2)] emptyDayLog).meals.map
        Meal.totalCalories = [330] ∧
    (applyAdds .breakfast 7 [(chicken, 2)] emptyDayLog).meals.map
        Meal.totalProtein = [62] ∧
    (applyAdds .breakfast 7 [(chicken, 2)] emptyDayLog).meals.map
        Meal.totalCarbs = [0] ∧
    (applyAdds .breakfast 7 [(chicken, 2)] emptyDayLog).meals.map
        Meal.totalFat = [7.2] :=
  ⟨by decide,
   addFood_totals_order_independent .breakfast 7 emptyDayLog
     (fun x hx => by simp [emptyDayLog] at hx)
     (fun x hx => by simp [emptyDayLog] at hx)
     [(chicken, 2)] [(chicken, 2)] (by simp) (List.Perm.refl _),
   by norm_num [applyAdds, handleAddFood, emptyDayLog, chicken],
   by norm_num [applyAdds, handleAddFood, emptyDayLog, chicken],
   by norm_num [applyAdds, handleAddFood, emptyDayLog, chicken],
   by norm_num [applyAdds, handleAddFood, emptyDayLog, chicken]⟩

/-- Witness for C3 at the spec's example (no-existing-meal case): the
created breakfast meal holds the single chicken entry and totals
330 / 62 / 0 / 7.2. -/
theorem handleAddFood_spec_witness :
    (0 : ℚ) < 2 ∧
    ((handleAddFood emptyDayLog chicken 2 .breakfast 7).1.items
        = [{ item := chicken, quantity := 2 }] ∧
      (handleAddFood emptyDayLog chicken 2 .breakfast 7).1.type = .breakfast ∧
      (handleAddFood emptyDayLog chicken 2 .breakfast 7).1.id = 7 ∧
      (handleAddFood emptyDayLog chicken 2 .breakfast 7).1.totalCalories
          = 2 * chicken.calories ∧
      (handleAddFood emptyDayLog chicken 2 .breakfast 7).1.totalProtein
          = 2 * chicken.protein ∧
      (handleAddFood emptyDayLog chicken 2 .breakfast 7).1.totalCarbs
          = 2 * chicken.carbs ∧
      (handleAddFood emptyDayLog chicken 2 .breakfast 7).1.totalFat
          = 2 * chicken.fat ∧
      (handleAddFood emptyDayLog chicken 2 .breakfast 7).2.meals
          = emptyDayLog.meals
              ++ [(handleAddFood emptyDayLog chicken 2 .breakfast 7).1]) ∧
    (handleAddFood emptyDayLog chicken 2 .breakfast 7).1.totalCalories = 330 ∧
    (handleAddFood emptyDayLog chicken 2 .breakfast 7).1.totalProtein = 62 ∧
    (handleAddFood emptyDayLog chicken 2 .breakfast 7).1.totalCarbs = 0 ∧
    (handleAddFood emptyDayLog chicken 2 .breakfast 7).1.totalFat = 7.2 :=
  ⟨by norm_num,
   (handleAddFood_spec emptyDayLog chicken 2 .breakfast 7 (by norm_num)
       (by simp [emptyDayLog])).2
     (fun mm hmm => by simp [emptyDayLog] at hmm),
   by norm_num [handleAddFood, emptyDayLog, chicken],
   by norm_num [handleAddFood, emptyDayLog, chicken],
   by norm_num [handleAddFood, emptyDayLog, chicken],
   by norm_num [handleAddFood, emptyDayLog, chicken]⟩
